import Mathlib

/-!
Verification of the ShaderTypes.h data-layout contract
(lagTestARKIT/Renderer/Core/ShaderTypes.h).

The header declares three C enums (BufferIndex, TextureIndex,
VertexAttribute) and five C structs (SharedUniforms, InstanceUniforms,
LayerUniforms, ShadowUniforms, Vertex) built from simd types.  We embed
the declarations shallowly: each struct is a list of named fields with a
field type drawn from the simd type universe, and the C/simd layout
rules (field alignment, struct alignment = max field alignment, total
size rounded up to struct alignment) are computed explicitly.  Under
simd rules a 3-component float vector has size 16 and alignment 16, a
2-component float vector has size 8 and alignment 8, and a 4x4 float
matrix has size 64 and alignment 16.
-/

/-- The simd/C field types occurring in ShaderTypes.h. -/
inductive FieldTy where
  | float
  | int
  | uint
  | vec2
  | vec3
  | vec4
  | mat4x4
  | floatArr (n : Nat)
deriving DecidableEq

/-- Alignment in bytes of a field type under the simd/C layout rules. -/
def FieldTy.alignment : FieldTy → Nat
  | .float => 4
  | .int => 4
  | .uint => 4
  | .vec2 => 8
  | .vec3 => 16
  | .vec4 => 16
  | .mat4x4 => 16
  | .floatArr _ => 4

/-- Size in bytes of a field type under the simd/C layout rules.
A 3-component float vector occupies 16 bytes, not 12. -/
def FieldTy.size : FieldTy → Nat
  | .float => 4
  | .int => 4
  | .uint => 4
  | .vec2 => 8
  | .vec3 => 16
  | .vec4 => 16
  | .mat4x4 => 64
  | .floatArr n => 4 * n

/-- Number of scalar components a field type carries. -/
def FieldTy.components : FieldTy → Nat
  | .float => 1
  | .int => 1
  | .uint => 1
  | .vec2 => 2
  | .vec3 => 3
  | .vec4 => 4
  | .mat4x4 => 16
  | .floatArr n => n

/-- Width in bytes of one scalar component (all scalars here are
single-precision floats or 32-bit integers). -/
def FieldTy.scalarBytes : FieldTy → Nat
  | _ => 4

/-- Whether an integer value is representable in a field of the given
declared type; false for the non-integer (floating or aggregate)
types.  C `int` is signed 32-bit, `uint32_t` is unsigned 32-bit. -/
def FieldTy.admitsInt : FieldTy → Int → Bool
  | .int, v => decide (-(2 ^ 31 : Int) ≤ v) && decide (v < (2 ^ 31 : Int))
  | .uint, v => decide ((0 : Int) ≤ v) && decide (v < (2 ^ 32 : Int))
  | _, _ => false

/-- A named struct field, as declared in the header. -/
structure CField where
  name : String
  ty : FieldTy
deriving DecidableEq

/-- Round an offset up to the next multiple of the alignment. -/
def alignUp (off a : Nat) : Nat := ((off + a - 1) / a) * a

/-- Offset one past the last declared field, laying fields out in
declaration order with each field placed at the next offset satisfying
its alignment (the C layout rule). -/
def structEnd (fs : List CField) : Nat :=
  fs.foldl (fun off f => alignUp off f.ty.alignment + f.ty.size) 0

/-- Struct alignment: the maximum alignment of its fields. -/
def structAlignment (fs : List CField) : Nat :=
  fs.foldl (fun m f => max m f.ty.alignment) 1

/-- Total struct size: the end of the last field rounded up to the
struct alignment.  Bytes between structEnd and structSize are implicit
trailing padding inserted by the compiler, not declared fields. -/
def structSize (fs : List CField) : Nat :=
  alignUp (structEnd fs) (structAlignment fs)

/-- True when laying the fields out in order leaves a gap before some
field, i.e. some field does not start exactly where the previous one
ended. -/
def hasInternalGapAux : Nat → List CField → Bool
  | _, [] => false
  | off, f :: fs =>
    (alignUp off f.ty.alignment != off) ||
      hasInternalGapAux (alignUp off f.ty.alignment + f.ty.size) fs

/-- True when some field of the struct is preceded by an alignment
gap. -/
def hasInternalGap (fs : List CField) : Bool := hasInternalGapAux 0 fs

/-- The BufferIndex enum of ShaderTypes.h. -/
def bufferIndexEnum : List (String × Int) :=
  [("BufferIndexMeshPositions", 0),
   ("BufferIndexMeshGenerics", 1),
   ("BufferIndexSharedUniforms", 2),
   ("BufferIndexInstanceUniforms", 3)]

/-- The TextureIndex enum of ShaderTypes.h. -/
def textureIndexEnum : List (String × Int) :=
  [("TextureIndexY", 0),
   ("TextureIndexCbCr", 1),
   ("TextureIndexMask", 8)]

/-- The VertexAttribute enum of ShaderTypes.h. -/
def vertexAttributeEnum : List (String × Int) :=
  [("VertexAttributePosition", 0),
   ("VertexAttributeTexcoord", 1),
   ("VertexAttributeNormal", 2)]

/-- The numeric values of an enum. -/
def enumValues (e : List (String × Int)) : List Int :=
  e.map (fun p => p.2)

/-- Look up an enumerator value by its name. -/
def enumLookup (e : List (String × Int)) (n : String) : Option Int :=
  (e.find? (fun p => p.1 == n)).map (fun p => p.2)

/-- All values in the list are pairwise distinct. -/
def distinctVals : List Int → Bool
  | [] => true
  | v :: vs => !vs.contains v && distinctVals vs

/-- The values are pairwise distinct non-negative integers forming
exactly the range 0 .. length - 1, with no gaps. -/
def contiguousFromZero (vs : List Int) : Bool :=
  distinctVals vs &&
    vs.all (fun v => decide ((0 : Int) ≤ v) && decide (v < (vs.length : Int))) &&
    (List.range vs.length).all (fun i => vs.contains (Int.ofNat i))

/-- No value occurs in both lists. -/
def valuesDisjoint (a b : List Int) : Bool :=
  a.all (fun v => !b.contains v)

/-- The SharedUniforms struct of ShaderTypes.h: two 4x4 matrices, three
float3 lighting vectors, shininess, time, and a trailing float[3]
padding field. -/
def sharedUniformsFields : List CField :=
  [⟨"viewMatrix", FieldTy.mat4x4⟩,
   ⟨"projectionMatrix", FieldTy.mat4x4⟩,
   ⟨"ambientLightColor", FieldTy.vec3⟩,
   ⟨"directionalLightDirection", FieldTy.vec3⟩,
   ⟨"directionalLightColor", FieldTy.vec3⟩,
   ⟨"materialShininess", FieldTy.float⟩,
   ⟨"time", FieldTy.float⟩,
   ⟨"_pad", FieldTy.floatArr 3⟩]

/-- The InstanceUniforms struct of ShaderTypes.h: one 4x4 model
matrix. -/
def instanceUniformsFields : List CField :=
  [⟨"modelMatrix", FieldTy.mat4x4⟩]

/-- The LayerUniforms struct of ShaderTypes.h. The mode field is
declared as C int (signed). -/
def layerUniformsFields : List CField :=
  [⟨"transform", FieldTy.mat4x4⟩,
   ⟨"scale", FieldTy.float⟩,
   ⟨"depth", FieldTy.float⟩,
   ⟨"mode", FieldTy.int⟩,
   ⟨"_pad", FieldTy.float⟩]

/-- The ShadowUniforms struct of ShaderTypes.h: two 4x4 matrices and a
float bias, with no declared trailing padding field. -/
def shadowUniformsFields : List CField :=
  [⟨"lightViewMatrix", FieldTy.mat4x4⟩,
   ⟨"lightProjectionMatrix", FieldTy.mat4x4⟩,
   ⟨"shadowBias", FieldTy.float⟩]

/-- The Vertex struct of ShaderTypes.h: float3 position, float2 texture
coordinate, uint32_t texture index, in that order. -/
def vertexFields : List CField :=
  [⟨"position", FieldTy.vec3⟩,
   ⟨"texCoord", FieldTy.vec2⟩,
   ⟨"textureIndex", FieldTy.uint⟩]

/-- Find a field of a struct by name. -/
def findField (fs : List CField) (n : String) : Option CField :=
  fs.find? (fun f => f.name == n)

/-- A top-level C declaration of the header: an enum, a struct, or a
compile-time static size/alignment assertion (the C11 construct the
spec calls for). -/
inductive CDecl where
  | enumDecl (name : String) (values : List (String × Int))
  | structDecl (name : String) (fields : List CField)
  | staticAssertDecl (description : String)

/-- The complete sequence of top-level declarations of ShaderTypes.h,
which is the entire repository: three enums and five structs, nothing
else. -/
def shaderTypesH : List CDecl :=
  [CDecl.enumDecl "BufferIndex" bufferIndexEnum,
   CDecl.enumDecl "TextureIndex" textureIndexEnum,
   CDecl.enumDecl "VertexAttribute" vertexAttributeEnum,
   CDecl.structDecl "SharedUniforms" sharedUniformsFields,
   CDecl.structDecl "InstanceUniforms" instanceUniformsFields,
   CDecl.structDecl "LayerUniforms" layerUniformsFields,
   CDecl.structDecl "ShadowUniforms" shadowUniformsFields,
   CDecl.structDecl "Vertex" vertexFields]

/-- Whether any declaration in the file is a static size/alignment
assertion. -/
def containsStaticAssert (ds : List CDecl) : Bool :=
  ds.any fun d =>
    match d with
    | CDecl.staticAssertDecl _ => true
    | _ => false

/-- Whether a declaration is a pure type or enum declaration, carrying
no check of any kind. -/
def isTypeDecl : CDecl → Bool
  | CDecl.staticAssertDecl _ => false
  | _ => true

/-- Claim C1 (counterexample): the program carries no build/link-time
static size/alignment assertion at all — ShaderTypes.h, the entire
repository, contains none, so a layout mismatch is not caught before
the first frame by the program itself. -/
theorem c1_counterexample_no_assertions :
    containsStaticAssert shaderTypesH = false := by decide

/-- Claim C1 (amended): the program carries no static size/alignment
assertions and no start-of-process check; every declaration of
ShaderTypes.h is a pure enum or struct declaration, and host/device
layout agreement relies solely on parallel declarations. -/
theorem c1_pure_declarations :
    containsStaticAssert shaderTypesH = false ∧
    shaderTypesH.all isTypeDecl = true := by decide

/-- Claim C2 (counterexample): the texture-slot namespace is not
contiguous from zero — TextureIndexMask is 8, leaving values 2 through
7 unassigned, so the set {0, 1, 8} has a gap. -/
theorem c2_counterexample_texture_gap :
    contiguousFromZero (enumValues textureIndexEnum) = false := by decide

/-- Claim C2 (amended): the buffer and vertex-attribute slot namespaces
are closed enumerations of pairwise distinct non-negative integers
contiguous from zero; the texture-slot namespace is pairwise distinct,
non-negative and starts at 0, but is not contiguous, since the mask
slot is 8 and values 2 through 7 are unassigned. -/
theorem c2_namespace_enumerations :
    contiguousFromZero (enumValues bufferIndexEnum) = true ∧
    contiguousFromZero (enumValues vertexAttributeEnum) = true ∧
    distinctVals (enumValues textureIndexEnum) = true ∧
    (enumValues textureIndexEnum).all (fun v => decide ((0 : Int) ≤ v)) = true ∧
    (enumValues textureIndexEnum).contains 0 = true ∧
    contiguousFromZero (enumValues textureIndexEnum) = false := by decide

/-- Claim C3 (counterexample): the numeric value sets of the three slot
enumerations are not pairwise disjoint — the value 0 occurs in the
buffer, texture, and vertex-attribute namespaces simultaneously. -/
theorem c3_counterexample_zero_shared :
    (enumValues bufferIndexEnum).contains 0 = true ∧
    (enumValues textureIndexEnum).contains 0 = true ∧
    (enumValues vertexAttributeEnum).contains 0 = true := by decide

/-- Claim C3 (amended): the slot identifiers form three separate
enumerations, each internally pairwise distinct, but their numeric
value sets overlap pairwise (0 and 1 occur in all three namespaces);
the namespaces are disjoint only in the sense of being independent
binding spaces, not numerically. -/
theorem c3_namespaces_overlap :
    valuesDisjoint (enumValues bufferIndexEnum) (enumValues textureIndexEnum) = false ∧
    valuesDisjoint (enumValues bufferIndexEnum) (enumValues vertexAttributeEnum) = false ∧
    valuesDisjoint (enumValues textureIndexEnum) (enumValues vertexAttributeEnum) = false ∧
    distinctVals (enumValues bufferIndexEnum) = true ∧
    distinctVals (enumValues textureIndexEnum) = true ∧
    distinctVals (enumValues vertexAttributeEnum) = true := by decide

/-- Claim C4 (counterexample): ShadowUniforms is not declared with a
fully explicit layout — its declared fields end at byte 132, yet its
total size is 144, so 12 bytes of size come from implicit trailing
padding left unspecified by the declaration. -/
theorem c4_counterexample_shadow_trailing :
    structEnd shadowUniformsFields = 132 ∧
    structSize shadowUniformsFields = 144 := by decide

/-- Claim C4 (amended): no record has an internal alignment gap between
declared fields, but three records depend on implicit trailing padding
for their total size: SharedUniforms (12 bytes), ShadowUniforms
(12 bytes) and Vertex (4 bytes); only InstanceUniforms and
LayerUniforms end exactly at their declared fields. -/
theorem c4_layout_explicitness :
    hasInternalGap sharedUniformsFields = false ∧
    hasInternalGap instanceUniformsFields = false ∧
    hasInternalGap layerUniformsFields = false ∧
    hasInternalGap shadowUniformsFields = false ∧
    hasInternalGap vertexFields = false ∧
    structSize sharedUniformsFields - structEnd sharedUniformsFields = 12 ∧
    structSize instanceUniformsFields - structEnd instanceUniformsFields = 0 ∧
    structSize layerUniformsFields - structEnd layerUniformsFields = 0 ∧
    structSize shadowUniformsFields - structEnd shadowUniformsFields = 12 ∧
    structSize vertexFields - structEnd vertexFields = 4 := by decide

/-- Claim C5: the InstanceUniforms record is exactly one 4x4
single-precision float matrix, 64 bytes, with no padding of any kind —
its declared fields end exactly at its total size, there are no gaps,
and the matrix is already 16-byte-aligned. -/
theorem c5_instance_uniforms_size :
    structSize instanceUniformsFields = FieldTy.size FieldTy.mat4x4 ∧
    structSize instanceUniformsFields = 64 ∧
    structEnd instanceUniformsFields = structSize instanceUniformsFields ∧
    hasInternalGap instanceUniformsFields = false ∧
    FieldTy.alignment FieldTy.mat4x4 = 16 := by decide

/-- Claim C6 (counterexample): the trailing 3-float padding field of
SharedUniforms is not exactly what rounds the record to a 16-byte
boundary — the declared fields end at byte 196, which is 4 mod 16, and
12 further bytes of implicit trailing padding are required. -/
theorem c6_counterexample_pad_not_exact :
    structEnd sharedUniformsFields = 196 ∧
    structEnd sharedUniformsFields % 16 = 4 ∧
    structSize sharedUniformsFields - structEnd sharedUniformsFields = 12 := by decide

/-- Claim C6 (amended): the total size of the Frame Uniform Record
(SharedUniforms) is a multiple of 16 bytes (208), but the trailing
3-float padding field does not by itself round the record to a 16-byte
boundary: the declared fields end at 196 and the remaining 12 bytes are
implicit trailing padding added by the layout rules. -/
theorem c6_shared_size_multiple_16 :
    structSize sharedUniformsFields = 208 ∧
    structSize sharedUniformsFields % 16 = 0 ∧
    structEnd sharedUniformsFields = 196 := by decide

/-- Claim C7 (counterexample): the mode field of LayerUniforms is
declared as signed C int, whose declared type admits negative values —
for instance it represents the value -1. -/
theorem c7_counterexample_mode_signed :
    findField layerUniformsFields "mode" = some ⟨"mode", FieldTy.int⟩ ∧
    FieldTy.admitsInt FieldTy.int (-1) = true := by decide

/-- Claim C7 (amended): the mode field of the Layer Uniform Record is a
32-bit signed integer enumerant: its declared type is C int, 4 bytes
wide, representing exactly the values from -2^31 to 2^31 - 1, so the
type admits negative values and the non-negativity of mode is only a
host-side convention. -/
theorem c7_mode_is_signed_int :
    findField layerUniformsFields "mode" = some ⟨"mode", FieldTy.int⟩ ∧
    FieldTy.size FieldTy.int = 4 ∧
    FieldTy.admitsInt FieldTy.int (-1) = true ∧
    FieldTy.admitsInt FieldTy.int (-(2 ^ 31)) = true ∧
    FieldTy.admitsInt FieldTy.int (2 ^ 31 - 1) = true ∧
    FieldTy.admitsInt FieldTy.int (2 ^ 31) = false := by decide

/-- Claim C8: the Vertex record consists of, in this fixed order, a
position of 3 single-precision floats, a texture coordinate of 2
single-precision floats, then a texture index that is an unsigned
32-bit integer (representing exactly 0 to 2^32 - 1); this field order
yields the per-vertex memory stride of 32 bytes. -/
theorem c8_vertex_layout :
    vertexFields =
      [⟨"position", FieldTy.vec3⟩,
       ⟨"texCoord", FieldTy.vec2⟩,
       ⟨"textureIndex", FieldTy.uint⟩] ∧
    FieldTy.components FieldTy.vec3 = 3 ∧
    FieldTy.scalarBytes FieldTy.vec3 = 4 ∧
    FieldTy.components FieldTy.vec2 = 2 ∧
    FieldTy.size FieldTy.uint = 4 ∧
    FieldTy.admitsInt FieldTy.uint 0 = true ∧
    FieldTy.admitsInt FieldTy.uint (2 ^ 32 - 1) = true ∧
    FieldTy.admitsInt FieldTy.uint (-1) = false ∧
    FieldTy.admitsInt FieldTy.uint (2 ^ 32) = false ∧
    structSize vertexFields = 32 := by decide

/-- Claim C9: the concrete slot assignments are buffer mesh positions
0, mesh generics 1, shared uniforms 2, instance uniforms 3; texture
luma 0, chroma 1, mask 8 with 2 through 7 unassigned; vertex-attribute
position 0, texcoord 1, normal 2. -/
theorem c9_slot_assignments :
    enumLookup bufferIndexEnum "BufferIndexMeshPositions" = some 0 ∧
    enumLookup bufferIndexEnum "BufferIndexMeshGenerics" = some 1 ∧
    enumLookup bufferIndexEnum "BufferIndexSharedUniforms" = some 2 ∧
    enumLookup bufferIndexEnum "BufferIndexInstanceUniforms" = some 3 ∧
    enumLookup textureIndexEnum "TextureIndexY" = some 0 ∧
    enumLookup textureIndexEnum "TextureIndexCbCr" = some 1 ∧
    enumLookup textureIndexEnum "TextureIndexMask" = some 8 ∧
    enumLookup vertexAttributeEnum "VertexAttributePosition" = some 0 ∧
    enumLookup vertexAttributeEnum "VertexAttributeTexcoord" = some 1 ∧
    enumLookup vertexAttributeEnum "VertexAttributeNormal" = some 2 ∧
    ([2, 3, 4, 5, 6, 7] : List Int).all
      (fun v => !(enumValues textureIndexEnum).contains v) = true := by decide

/-- Claim C10: under the simd layout rules a 3-component float vector
field occupies 16 bytes, and the resulting record sizes are
SharedUniforms 208, LayerUniforms 80, ShadowUniforms 144 and Vertex 32
bytes. -/
theorem c10_simd_record_sizes :
    FieldTy.size FieldTy.vec3 = 16 ∧
    structSize sharedUniformsFields = 208 ∧
    structSize layerUniformsFields = 80 ∧
    structSize shadowUniformsFields = 144 ∧
    structSize vertexFields = 32 := by decide
